import Mathlib

/-!
Shallow embedding of `src/mdsisclienttools/auth/TokenManager.py`
(the OAuth 2.0 Device Authorization Grant client `DeviceFlowManager`).

Python exceptions are modelled with `Except String`; the mutable manager
object is modelled as an explicit state record `MState`; HTTP traffic is
modelled by an environment record `Env` holding the responses the
authorization server would return, and every outgoing HTTP request is
recorded in a `List NetCall` trace.  JSON serialisation follows the
pydantic-v1 semantics the code relies on: `.json(exclude_none=True)`
drops a model field whose value is `None` (such as `refresh_token`) but
keeps `null` entries of a plain `Dict` field (such as the stage map).
-/

namespace TokenManager

/-- `class StorageType(str, Enum)` — which storage backend is in use. -/
inductive StorageType where
  | FILE
  | OBJECT
deriving DecidableEq, Repr

/-- `class Stage(str, Enum)` — the deployment stages. -/
inductive Stage where
  | TEST
  | DEV
  | STAGE
  | PROD
deriving DecidableEq, Repr

/-- `Stage[stage]` name lookup used by the constructor. -/
def stageOfString (s : String) : Option Stage :=
  if s = "TEST" then some Stage.TEST
  else if s = "DEV" then some Stage.DEV
  else if s = "STAGE" then some Stage.STAGE
  else if s = "PROD" then some Stage.PROD
  else none

/-- `class Tokens(BaseModel)` — access token plus optional refresh token. -/
structure Tokens where
  access_token : String
  refresh_token : Option String
deriving DecidableEq, Repr

/-- `class StageTokens(BaseModel)` — `stages: Dict[Stage, Optional[Tokens]]`,
one entry per stage (pydantic fills missing keys with `None` on access). -/
structure StageTokens where
  TEST : Option Tokens
  DEV : Option Tokens
  STAGE : Option Tokens
  PROD : Option Tokens
deriving DecidableEq, Repr

/-- `stage_tokens.stages.get(stage)` -/
def StageTokens.get (s : StageTokens) : Stage → Option Tokens
  | Stage.TEST => s.TEST
  | Stage.DEV => s.DEV
  | Stage.STAGE => s.STAGE
  | Stage.PROD => s.PROD

/-- `stage_tokens.stages[stage] = v` -/
def StageTokens.set (s : StageTokens) : Stage → Option Tokens → StageTokens
  | Stage.TEST, v => { s with TEST := v }
  | Stage.DEV, v => { s with DEV := v }
  | Stage.STAGE, v => { s with STAGE := v }
  | Stage.PROD, v => { s with PROD := v }

/-- The all-`None` stage map built by `reset_storage` and by
`update_local_storage` when no parsable store exists. -/
def emptyStages : StageTokens :=
  { TEST := none, DEV := none, STAGE := none, PROD := none }

/-- `tokens.refresh_token = None` — the in-place strip applied to each
entry when operating in OFFLINE mode. -/
def stripRefresh (t : Tokens) : Tokens :=
  { t with refresh_token := none }

/-- The OFFLINE-mode loop `for stage, tokens in existing_tokens.stages.items():
if tokens: tokens.refresh_token = None` applied to the whole store. -/
def StageTokens.stripAll (s : StageTokens) : StageTokens :=
  { TEST := s.TEST.map stripRefresh
    DEV := s.DEV.map stripRefresh
    STAGE := s.STAGE.map stripRefresh
    PROD := s.PROD.map stripRefresh }

/-- `class AuthFlow(str, Enum)` -/
inductive AuthFlow where
  | DEVICE
  | OFFLINE
deriving DecidableEq, Repr

/-- One response from the device-flow polling of the token endpoint:
`response.json()` with its optional `error` field and the token payload
fields read on success. -/
structure PollResp where
  error : Option String
  access_token : Option String
  refresh_token : Option String
deriving DecidableEq, Repr

/-- Result of `await_device_auth_flow_completion` on a finite prefix of the
server's poll responses.  `success r n` / `failure e n` mean the loop ended
with `n` executed `time.sleep(interval)` calls (each of `interval` seconds);
`failure e n` is the path that prints `Failed due to <e>` and returns
`None`.  `stillPolling` means every supplied response was
`authorization_pending`, so the loop is still running (it retries
indefinitely, with no built-in timeout or retry bound). -/
inductive PollOutcome where
  | success (resp : PollResp) (sleeps : Nat)
  | failure (reported : String) (sleeps : Nat)
  | stillPolling
deriving DecidableEq, Repr

/-- `DeviceFlowManager.await_device_auth_flow_completion` (lines 790-855):
poll loop over the successive token-endpoint responses.  A response with no
`error` returns its payload at once; `error == "authorization_pending"`
sleeps and retries; any other error sets `misc_fail`, still sleeps once,
then leaves the loop and reports the error string. -/
def await_device_auth_flow_completion : List PollResp → PollOutcome
  | [] => PollOutcome.stillPolling
  | r :: rest =>
    match r.error with
    | none => PollOutcome.success r 0
    | some e =>
      if e = "authorization_pending" then
        match await_device_auth_flow_completion rest with
        | PollOutcome.success p n => PollOutcome.success p (n + 1)
        | PollOutcome.failure m n => PollOutcome.failure m (n + 1)
        | PollOutcome.stillPolling => PollOutcome.stillPolling
      else PollOutcome.failure e 1

/-- A pending poll response (the payload fields of a pending response are
irrelevant to the loop). -/
def pendingResp : PollResp :=
  { error := some "authorization_pending", access_token := none, refresh_token := none }

/-- A response of the token endpoint to a refresh grant
(`requests.post(self.token_endpoint, data=...)`): HTTP status plus the
fields `response.json().get(...)` reads. -/
structure TokenEndpointResp where
  status : Nat
  access_token : Option String
  refresh_token : Option String
deriving DecidableEq, Repr

/-- The device endpoint's response to the registration POST of
`initiate_device_auth_flow`: HTTP status, whether the body parses as JSON,
and the fields `get_tokens` later reads from it. -/
structure DeviceResp where
  status : Nat
  jsonOk : Bool
  device_code : Option String
  user_code : Option String
  verification_uri_complete : Option String
  interval : Option Nat
deriving DecidableEq, Repr

/-- One outgoing HTTP request of the manager. -/
inductive NetCall where
  | publicKeyCall
  | refreshCall
  | offlineRefreshCall
  | deviceInitCall
  | devicePollCall
deriving DecidableEq, Repr

/-- The external world fixed for one run: what the authorization server
answers on each endpoint, and which access tokens `jwt.decode` accepts
under a given public key (signature correct and claims unexpired). -/
structure Env where
  validTok : String → String → Bool
  refreshResp : String → TokenEndpointResp
  offlineResp : TokenEndpointResp
  deviceResp : DeviceResp
  pollResponses : List PollResp
  publicKeyResp : Except String String
  storedTokens : Option StageTokens

/-- The configuration fixed by `__init__` (client id, scopes and endpoint
URLs only feed the HTTP payloads, which `Env` abstracts). -/
structure Config where
  authFlow : AuthFlow
  stage : Stage
  storageType : StorageType
  offlineToken : Option String

/-- The manager's mutable state: `self.tokens`, `self.public_key` and the
parsed contents of the storage backend (`none` when the file/object is
missing or unparsable). -/
structure MState where
  tokens : Option Tokens
  publicKey : Option String
  store : Option StageTokens
deriving DecidableEq, Repr

/-- `DeviceFlowManager.validate_token` (lines 857-893): validate the given
tokens (or `self.tokens` when absent) against `self.public_key` with
`jwt.decode`; asserts both are present; pure and network-free. -/
def validate_token (env : Env) (st : MState) (tokens : Option Tokens) : Except String Unit :=
  let test_tokens := match tokens with
    | some t => some t
    | none => st.tokens
  match test_tokens with
  | none => Except.error "assert test_tokens"
  | some t =>
    match st.publicKey with
    | none => Except.error "assert self.public_key"
    | some pk =>
      if env.validTok pk t.access_token then Except.ok ()
      else Except.error "Signature verification failed."

/-- `DeviceFlowManager.update_local_storage` (lines 315-402): re-read the
store (a parse failure starts from the all-`None` map), replace the entry
of the given stage by `self.tokens`, in OFFLINE mode null out every
`refresh_token` in place — which, through aliasing, also strips
`self.tokens` itself since it is one of the map's entries — then write the
whole structure back.  The FILE and OBJECT branches perform the same
logical transformation. -/
def update_local_storage (cfg : Config) (st : MState) (stage : Stage) : Except String MState :=
  match st.tokens with
  | none => Except.error "assert self.tokens"
  | some t =>
    let existing_tokens := match st.store with
      | some s => s
      | none => emptyStages
    let updated := existing_tokens.set stage (some t)
    if cfg.authFlow = AuthFlow.OFFLINE then
      Except.ok { st with store := some updated.stripAll, tokens := some (stripRefresh t) }
    else
      Except.ok { st with store := some updated }

/-- `DeviceFlowManager.perform_refresh` (lines 580-628): refresh-grant POST
to the token endpoint using the given tokens' (or `self.tokens`') refresh
token; asserts the refresh token is present; raises on a non-200 status. -/
def perform_refresh (env : Env) (st : MState) (tokens : Option Tokens) :
    Except String TokenEndpointResp × List NetCall :=
  let desired_tokens := match tokens with
    | some t => some t
    | none => st.tokens
  match desired_tokens with
  | none => (Except.error "assert desired_tokens", [])
  | some t =>
    match t.refresh_token with
    | none => (Except.error "assert desired_tokens.refresh_token", [])
    | some rt =>
      let resp := env.refreshResp rt
      if resp.status = 200 then (Except.ok resp, [NetCall.refreshCall])
      else
        (Except.error ("Something went wrong during token refresh. Status code: "
          ++ toString resp.status ++ "."), [NetCall.refreshCall])

/-- `DeviceFlowManager.perform_offline_refresh` (lines 404-438):
refresh-grant POST using the configured offline token; raises on a non-200
status, otherwise returns the JSON payload. -/
def perform_offline_refresh (env : Env) : Except String TokenEndpointResp × List NetCall :=
  let resp := env.offlineResp
  if resp.status = 200 then (Except.ok resp, [NetCall.offlineRefreshCall])
  else
    (Except.error ("Something went wrong during offline token refresh. Status code: "
      ++ toString resp.status ++ "."), [NetCall.offlineRefreshCall])

/-- `DeviceFlowManager.initiate_device_auth_flow` (lines 630-646): POST to
the device endpoint, then immediately `.json()` the response.  The HTTP
status code is never inspected; only a body that fails to parse as JSON
raises. -/
def initiate_device_auth_flow (d : DeviceResp) : Except String DeviceResp :=
  if d.jsonOk then Except.ok d
  else Except.error "JSONDecodeError"

/-- The device-registration step of `get_tokens` (lines 475-482):
`initiate_device_auth_flow` followed by the subscript reads of
`device_code`, `user_code`, `verification_uri_complete` and `interval`
(each missing key raises a `KeyError`). -/
def device_registration (d : DeviceResp) : Except String (String × String × String × Nat) :=
  match initiate_device_auth_flow d with
  | Except.error e => Except.error e
  | Except.ok resp =>
    match resp.device_code with
    | none => Except.error "KeyError: device_code"
    | some dc =>
      match resp.user_code with
      | none => Except.error "KeyError: user_code"
      | some uc =>
        match resp.verification_uri_complete with
        | none => Except.error "KeyError: verification_uri_complete"
        | some uri =>
          match resp.interval with
          | none => Except.error "KeyError: interval"
          | some iv => Except.ok (dc, uc, uri, iv)

/-- `self.tokens.access_token` — attribute access on `self.tokens`, which
raises `AttributeError` when `self.tokens` is `None`. -/
def tokens_access (st : MState) : Except String String :=
  match st.tokens with
  | some t => Except.ok t.access_token
  | none => Except.error "AttributeError: NoneType has no attribute access_token"

/-- `DeviceFlowManager.retrieve_local_tokens` (lines 186-291): read the
store and take the entry of the given stage (missing store, unparsable
store or absent entry all yield `None`); validate it; if invalid and in
OFFLINE mode give up (`None`); otherwise try one refresh grant, rebuild
and re-validate the tokens, and return them, with any failure mapped to
`None`.  The FILE and OBJECT branches differ only in logging. -/
def retrieve_local_tokens (env : Env) (cfg : Config) (st : MState) (stage : Stage) :
    Option Tokens × List NetCall :=
  match st.store.bind (fun s => s.get stage) with
  | none => (none, [])
  | some tokens =>
    match validate_token env st (some tokens) with
    | Except.ok _ => (some tokens, [])
    | Except.error _ =>
      if cfg.authFlow = AuthFlow.OFFLINE then (none, [])
      else
        match perform_refresh env st (some tokens) with
        | (Except.ok resp, calls) =>
          match resp.access_token, resp.refresh_token with
          | some a, some r =>
            let t : Tokens := { access_token := a, refresh_token := some r }
            match validate_token env st (some t) with
            | Except.ok _ => (some t, calls)
            | Except.error _ => (none, calls)
          | _, _ => (none, calls)
        | (Except.error _, calls) => (none, calls)

/-- `DeviceFlowManager.get_tokens` (lines 440-554): try the local store
first (always re-persisting what was found); otherwise run the configured
authorization flow — device registration, challenge display and polling in
DEVICE mode, or a single offline refresh grant in OFFLINE mode — then set
`self.tokens` and persist.  The overall `none` means the polling loop is
still running (no terminal response was supplied), since the loop has no
built-in timeout. -/
def get_tokens (env : Env) (cfg : Config) (st : MState) :
    Option (Except String Unit × MState × List NetCall) :=
  match retrieve_local_tokens env cfg st cfg.stage with
  | (some t, c0) =>
    match update_local_storage cfg { st with tokens := some t } cfg.stage with
    | Except.ok st1 => some (Except.ok (), st1, c0)
    | Except.error e => some (Except.error e, { st with tokens := some t }, c0)
  | (none, c0) =>
    match cfg.authFlow with
    | AuthFlow.DEVICE =>
      match device_registration env.deviceResp with
      | Except.error e => some (Except.error e, st, c0 ++ [NetCall.deviceInitCall])
      | Except.ok _ =>
        match await_device_auth_flow_completion env.pollResponses with
        | PollOutcome.stillPolling => none
        | PollOutcome.failure _ n =>
          some (Except.error "Failed to retrieve tokens from device authorisation flow!",
            st, c0 ++ [NetCall.deviceInitCall] ++ List.replicate n NetCall.devicePollCall)
        | PollOutcome.success resp n =>
          let calls := c0 ++ [NetCall.deviceInitCall]
            ++ List.replicate (n + 1) NetCall.devicePollCall
          match resp.access_token, resp.refresh_token with
          | some a, some r =>
            let st1 := { st with tokens := some { access_token := a, refresh_token := some r } }
            match update_local_storage cfg st1 cfg.stage with
            | Except.ok st2 => some (Except.ok (), st2, calls)
            | Except.error e => some (Except.error e, st1, calls)
          | _, _ =>
            some (Except.error "Token payload did not include access or refresh token",
              st, calls)
    | AuthFlow.OFFLINE =>
      match perform_offline_refresh env with
      | (Except.error e, calls) => some (Except.error e, st, c0 ++ calls)
      | (Except.ok resp, calls) =>
        match resp.access_token, resp.refresh_token with
        | some a, some r =>
          let st1 := { st with tokens := some { access_token := a, refresh_token := some r } }
          match update_local_storage cfg st1 cfg.stage with
          | Except.ok st2 => some (Except.ok (), st2, c0 ++ calls)
          | Except.error e => some (Except.error e, st1, c0 ++ calls)
        | _, _ =>
          some (Except.error "Offline refresh token payload did not include access or refresh token",
            st, c0 ++ calls)

/-- `DeviceFlowManager.perform_token_refresh` (lines 556-578): refresh
grant on `self.tokens`, assert the payload carries both tokens, replace
`self.tokens`, persist. -/
def perform_token_refresh (env : Env) (cfg : Config) (st : MState) :
    Except String Unit × MState × List NetCall :=
  match st.tokens with
  | none => (Except.error "assert self.tokens is not None", st, [])
  | some _ =>
    match perform_refresh env st none with
    | (Except.error e, calls) => (Except.error e, st, calls)
    | (Except.ok resp, calls) =>
      match resp.access_token, resp.refresh_token with
      | some a, some r =>
        let st1 := { st with tokens := some { access_token := a, refresh_token := some r } }
        match update_local_storage cfg st1 cfg.stage with
        | Except.ok st2 => (Except.ok (), st2, calls)
        | Except.error e => (Except.error e, st1, calls)
      | _, _ => (Except.error "assert access_token and refresh_token", st, calls)

/-- The shared tier-3 tail of `get_token` / `get_auth`: `self.get_tokens()`
then `self.validate_token()`, and on any failure the fatal
`Device log in failed, ...` exception naming the caught error. -/
def reauth_tier (env : Env) (cfg : Config) (st : MState) (c : List NetCall) :
    Option (Except String String × MState × List NetCall) :=
  match get_tokens env cfg st with
  | none => none
  | some (Except.error e, st3, c3) =>
    some (Except.error
      ("Device log in failed, access token expired/invalid, and refresh failed. Error: " ++ e),
      st3, c ++ c3)
  | some (Except.ok _, st3, c3) =>
    match validate_token env st3 none with
    | Except.error e =>
      some (Except.error
        ("Device log in failed, access token expired/invalid, and refresh failed. Error: " ++ e),
        st3, c ++ c3)
    | Except.ok _ =>
      match tokens_access st3 with
      | Except.ok a => some (Except.ok a, st3, c ++ c3)
      | Except.error e => some (Except.error e, st3, c ++ c3)

/-- `DeviceFlowManager.get_token` (lines 648-692): require `self.tokens`
and `self.public_key`; validate; on failure refresh and re-validate; on
failure re-authorize (`get_tokens`) and re-validate; on failure raise the
fatal error naming the last failure; finally return
`self.tokens.access_token`. -/
def get_token (env : Env) (cfg : Config) (st : MState) :
    Option (Except String String × MState × List NetCall) :=
  if st.tokens.isNone ∨ st.publicKey.isNone then
    some (Except.error "cannot generate token without access token or public key", st, [])
  else
    match validate_token env st none with
    | Except.ok _ =>
      match tokens_access st with
      | Except.ok a => some (Except.ok a, st, [])
      | Except.error e => some (Except.error e, st, [])
    | Except.error _ =>
      match perform_token_refresh env cfg st with
      | (Except.ok _, st2, c2) =>
        match validate_token env st2 none with
        | Except.ok _ =>
          match tokens_access st2 with
          | Except.ok a => some (Except.ok a, st2, c2)
          | Except.error e => some (Except.error e, st2, c2)
        | Except.error _ => reauth_tier env cfg st2 c2
      | (Except.error _, st2, c2) => reauth_tier env cfg st2 c2

/-- `class BearerAuth(requests.auth.AuthBase)` — carries the access token
and supplies the `authorization: Bearer <token>` header. -/
structure BearerAuth where
  token : String
deriving DecidableEq, Repr

/-- `BearerAuth.__call__`: the header value it installs on a request. -/
def BearerAuth.headerValue (b : BearerAuth) : String :=
  "Bearer " ++ b.token

/-- `DeviceFlowManager.get_auth` (lines 694-740): identical escalation to
`get_token`, but returns `BearerAuth(token=self.tokens.access_token)` and
uses a different message on the missing-state guard. -/
def get_auth (env : Env) (cfg : Config) (st : MState) :
    Option (Except String BearerAuth × MState × List NetCall) :=
  if st.tokens.isNone ∨ st.publicKey.isNone then
    some (Except.error "cannot generate bearer auth object without access token or public key",
      st, [])
  else
    match validate_token env st none with
    | Except.ok _ =>
      match tokens_access st with
      | Except.ok a => some (Except.ok { token := a }, st, [])
      | Except.error e => some (Except.error e, st, [])
    | Except.error _ =>
      match perform_token_refresh env cfg st with
      | (Except.ok _, st2, c2) =>
        match validate_token env st2 none with
        | Except.ok _ =>
          match tokens_access st2 with
          | Except.ok a => some (Except.ok { token := a }, st2, c2)
          | Except.error e => some (Except.error e, st2, c2)
        | Except.error _ =>
          match reauth_tier env cfg st2 c2 with
          | none => none
          | some (r, st3, c3) => some (r.map (fun a => { token := a }), st3, c3)
      | (Except.error _, st2, c2) =>
        match reauth_tier env cfg st2 c2 with
        | none => none
        | some (r, st3, c3) => some (r.map (fun a => { token := a }), st3, c3)

/-- `DeviceFlowManager.reset_storage` (lines 293-313): FILE storage writes
the all-`None` stage map; OBJECT storage calls `dict.clear()`, leaving an
empty dict that no longer parses as a `StageTokens` (hence `none`). -/
def reset_storage (cfg : Config) (st : MState) : MState :=
  match cfg.storageType with
  | StorageType.FILE => { st with store := some emptyStages }
  | StorageType.OBJECT => { st with store := none }

/-- Python truthiness of an optional string (`if not offline_token`). -/
def truthy : Option String → Bool
  | none => false
  | some s => s ≠ ""

/-- The constructor arguments of `DeviceFlowManager.__init__` that the
control flow depends on. -/
structure InitArgs where
  stage : String
  auth_flow : AuthFlow
  offline_token : Option String
  local_storage_location : Option String
  local_storage_object_provided : Bool
  force_token_refresh : Bool

/-- `DeviceFlowManager.__init__` (lines 56-169): reject conflicting
storage options (line 110, before anything else and before any network
traffic); select the backend; check the flow/offline-token combination;
parse the stage; optionally reset storage; fetch the public key
(`retrieve_keycloak_public_key`, lines 742-769, the first network call);
then run `get_tokens`.  `env.storedTokens` is the parsed initial content
of the selected backend. -/
def init (env : Env) (a : InitArgs) :
    Option (Except String (Config × MState) × List NetCall) :=
  if a.local_storage_location.isSome ∧ a.local_storage_object_provided then
    some (Except.error "Can't specify both local storage file and object.", [])
  else
    let storageType :=
      if a.local_storage_object_provided then StorageType.OBJECT else StorageType.FILE
    if a.auth_flow = AuthFlow.OFFLINE ∧ truthy a.offline_token = false then
      some (Except.error "You are using an offline auth flow but did not provide an offline token!",
        [])
    else if a.auth_flow = AuthFlow.DEVICE ∧ truthy a.offline_token then
      some (Except.error "You provided an offline token but specified the DEVICE auth flow.", [])
    else
      match stageOfString a.stage with
      | none => some (Except.error ("Stage " ++ a.stage ++ " is not one of list(Stage)."), [])
      | some stage =>
        let cfg : Config :=
          { authFlow := a.auth_flow, stage := stage, storageType := storageType
            offlineToken := a.offline_token }
        let st0 : MState := { tokens := none, publicKey := none, store := env.storedTokens }
        let st1 := if a.force_token_refresh then reset_storage cfg st0 else st0
        match env.publicKeyResp with
        | Except.error e => some (Except.error e, [NetCall.publicKeyCall])
        | Except.ok key =>
          let pk := "-----BEGIN PUBLIC KEY-----\r\n" ++ key ++ "\r\n-----END PUBLIC KEY-----"
          let st2 := { st1 with publicKey := some pk }
          match get_tokens env cfg st2 with
          | none => none
          | some (Except.error e, _, calls) =>
            some (Except.error e, NetCall.publicKeyCall :: calls)
          | some (Except.ok _, st3, calls) =>
            some (Except.ok (cfg, st3), NetCall.publicKeyCall :: calls)

/-! ### JSON serialisation layer

`reset_storage` writes `cleared_tokens.json()` and `update_local_storage`
writes `existing_tokens.json(exclude_none=True)`.  Under pydantic v1,
`exclude_none=True` drops a *model field* whose value is `None` (so a
`Tokens` with `refresh_token=None` serialises without that key) but keeps
`None`-valued entries of a plain `Dict` field as `null` (so unset stages
are serialised as `null` either way).  Parsing treats a missing
`refresh_token` key as `None`, and `stages.get` treats a missing stage key
as `None`. -/

/-- A JSON value (the fragment these files use). -/
inductive Json where
  | null
  | str (s : String)
  | num (n : Nat)
  | obj (fields : List (String × Json))

/-- Keys of a top-level JSON object. -/
def Json.topKeys : Json → List String
  | Json.obj fs => fs.map Prod.fst
  | _ => []

/-- First field of an object with the given key (JSON objects written by
this code never repeat keys). -/
def lookupField (fs : List (String × Json)) (k : String) : Option Json :=
  match fs with
  | [] => none
  | (k', v) :: rest => if k' = k then some v else lookupField rest k

/-- Whether a field named `k` appears anywhere in the JSON value. -/
def Json.hasKey (k : String) : Json → Bool
  | Json.null => false
  | Json.str _ => false
  | Json.num _ => false
  | Json.obj [] => false
  | Json.obj ((k', v) :: rest) => k' = k || v.hasKey k || (Json.obj rest).hasKey k

/-- pydantic serialisation of a `Tokens` model: `access_token` always
written; `refresh_token` written as `null` when `None`, unless
`exclude_none` drops the field. -/
def Tokens.toJson (excludeNone : Bool) (t : Tokens) : Json :=
  Json.obj ([("access_token", Json.str t.access_token)] ++
    (match t.refresh_token with
     | some r => [("refresh_token", Json.str r)]
     | none => if excludeNone then [] else [("refresh_token", Json.null)]))

/-- One entry of the `stages` dict: a `None` entry stays as `null` (dict
values are not dropped by `exclude_none`). -/
def entryJson (excludeNone : Bool) (name : String) (e : Option Tokens) : String × Json :=
  match e with
  | some t => (name, t.toJson excludeNone)
  | none => (name, Json.null)

/-- pydantic serialisation of a `StageTokens` model: the single field
`stages` holding the per-stage dict (canonical TEST, DEV, STAGE, PROD
order). -/
def StageTokens.toJson (excludeNone : Bool) (s : StageTokens) : Json :=
  Json.obj [("stages", Json.obj
    [entryJson excludeNone "TEST" s.TEST,
     entryJson excludeNone "DEV" s.DEV,
     entryJson excludeNone "STAGE" s.STAGE,
     entryJson excludeNone "PROD" s.PROD])]

/-- pydantic parsing of a `Tokens` model: `access_token` required string;
`refresh_token` an optional string, absent or `null` giving `None`. -/
def parseTokens : Json → Option Tokens
  | Json.obj fs =>
    match lookupField fs "access_token" with
    | some (Json.str a) =>
      match lookupField fs "refresh_token" with
      | none => some { access_token := a, refresh_token := none }
      | some Json.null => some { access_token := a, refresh_token := none }
      | some (Json.str r) => some { access_token := a, refresh_token := some r }
      | some _ => none
    | _ => none
  | _ => none

/-- One stage entry of the parsed dict: a missing key or `null` is `None`
(`stages.get(stage)` on a dict without that key); anything else must parse
as a `Tokens`. -/
def parseEntry (fs : List (String × Json)) (name : String) : Option (Option Tokens) :=
  match lookupField fs name with
  | none => some none
  | some Json.null => some none
  | some j =>
    match parseTokens j with
    | some t => some (some t)
    | none => none

/-- `StageTokens.parse_file` / `StageTokens.parse_obj` on a JSON value:
requires the `stages` field; each present stage entry must validate.
`none` models the `ValidationError` path that callers treat as "no cached
tokens". -/
def parseStageTokens : Json → Option StageTokens
  | Json.obj fs =>
    match lookupField fs "stages" with
    | some (Json.obj ss) =>
      match parseEntry ss "TEST", parseEntry ss "DEV", parseEntry ss "STAGE",
          parseEntry ss "PROD" with
      | some t, some d, some s, some p =>
        some { TEST := t, DEV := d, STAGE := s, PROD := p }
      | _, _, _, _ => none
    | _ => none
  | _ => none

/-- The JSON text written by `reset_storage` in FILE mode:
`cleared_tokens.json()` of the all-`None` map. -/
def resetStorageJson : Json :=
  StageTokens.toJson false emptyStages

/-! ### Helper lemmas -/

theorem get_set_self (s : StageTokens) (g : Stage) (v : Option Tokens) :
    (s.set g v).get g = v := by
  cases g <;> rfl

theorem get_set_ne (s : StageTokens) (g g' : Stage) (v : Option Tokens) (h : g' ≠ g) :
    (s.set g v).get g' = s.get g' := by
  cases g <;> cases g' <;> simp_all [StageTokens.set, StageTokens.get]

theorem get_stripAll (s : StageTokens) (g : Stage) :
    s.stripAll.get g = (s.get g).map stripRefresh := by
  cases g <;> rfl

theorem await_error_pending_cons (r : PollResp) (rest : List PollResp)
    (hr : r.error = some "authorization_pending") :
    await_device_auth_flow_completion (r :: rest) =
      match await_device_auth_flow_completion rest with
      | PollOutcome.success p n => PollOutcome.success p (n + 1)
      | PollOutcome.failure m n => PollOutcome.failure m (n + 1)
      | PollOutcome.stillPolling => PollOutcome.stillPolling := by
  simp [await_device_auth_flow_completion, hr]

theorem await_pending_cons (rest : List PollResp) :
    await_device_auth_flow_completion (pendingResp :: rest) =
      match await_device_auth_flow_completion rest with
      | PollOutcome.success p n => PollOutcome.success p (n + 1)
      | PollOutcome.failure m n => PollOutcome.failure m (n + 1)
      | PollOutcome.stillPolling => PollOutcome.stillPolling := by
  simp [await_device_auth_flow_completion, pendingResp]

theorem await_replicate_pending (n : Nat) :
    await_device_auth_flow_completion (List.replicate n pendingResp)
      = PollOutcome.stillPolling := by
  induction n with
  | zero => rfl
  | succ k ih => rw [List.replicate_succ, await_pending_cons, ih]

/-! ### Claims -/

/-- C4: in the device-flow polling loop, the simulated response sequence
pending, pending, success ends with exactly two sleeps of `interval`
seconds and returns the third response's token payload; and any number of
`authorization_pending` responses leaves the loop still polling — it
retries indefinitely with no built-in timeout or maximum retry count. -/
theorem C4_polling_pending_pending_success (resp : PollResp) (h : resp.error = none) :
    (await_device_auth_flow_completion [pendingResp, pendingResp, resp]
      = PollOutcome.success resp 2)
    ∧ (∀ n : Nat, await_device_auth_flow_completion (List.replicate n pendingResp)
      = PollOutcome.stillPolling) := by
  constructor
  · rw [await_pending_cons, await_pending_cons]
    simp [await_device_auth_flow_completion, h]
  · exact await_replicate_pending

theorem C4_polling_pending_pending_success_witness :
    (await_device_auth_flow_completion
        [pendingResp, pendingResp,
         { error := none, access_token := some "A", refresh_token := some "R" }]
      = PollOutcome.success
         { error := none, access_token := some "A", refresh_token := some "R" } 2)
    ∧ (∀ n : Nat, await_device_auth_flow_completion (List.replicate n pendingResp)
      = PollOutcome.stillPolling) :=
  C4_polling_pending_pending_success
    { error := none, access_token := some "A", refresh_token := some "R" } rfl

/-- C5: a poll response whose error is anything other than
`authorization_pending` terminates the loop right after that response,
and the function signals failure reporting that error string (it prints
`Failed due to <error>` and returns `None`); any later responses are
never consumed.  In particular pending followed by `invalid_client`
terminates after the second response naming `invalid_client`. -/
theorem C5_polling_fatal_error (pre : List PollResp) (fatal : PollResp) (e : String)
    (rest : List PollResp)
    (hpre : ∀ r ∈ pre, r.error = some "authorization_pending")
    (hf : fatal.error = some e) (he : e ≠ "authorization_pending") :
    await_device_auth_flow_completion (pre ++ fatal :: rest)
      = PollOutcome.failure e (pre.length + 1) := by
  induction pre with
  | nil =>
    simp [await_device_auth_flow_completion, hf, he]
  | cons r pre ih =>
    have hr : r.error = some "authorization_pending" := hpre r (List.mem_cons_self r pre)
    have hpre' : ∀ x ∈ pre, x.error = some "authorization_pending" :=
      fun x hx => hpre x (List.mem_cons_of_mem r hx)
    rw [List.cons_append, await_error_pending_cons r _ hr, ih hpre']
    simp

theorem C5_polling_fatal_error_witness :
    await_device_auth_flow_completion
        [pendingResp,
         { error := some "invalid_client", access_token := none, refresh_token := none }]
      = PollOutcome.failure "invalid_client" 2 := by
  have h := C5_polling_fatal_error [pendingResp]
    { error := some "invalid_client", access_token := none, refresh_token := none }
    "invalid_client" []
    (by intro r hr; simp at hr; rw [hr]; rfl) rfl (by decide)
  simpa using h

/-- C2: when the in-memory access token carries a correct signature
against the fetched public key and unexpired claims (`env.validTok`),
`validate_token` succeeds and `get_token` returns exactly that
access_token string, with an unchanged state and an empty network trace
(no network call). -/
theorem C2_valid_tokens_no_network (env : Env) (cfg : Config) (st : MState)
    (t : Tokens) (pk : String)
    (ht : st.tokens = some t) (hpk : st.publicKey = some pk)
    (hv : env.validTok pk t.access_token = true) :
    validate_token env st (some t) = Except.ok ()
    ∧ get_token env cfg st = some (Except.ok t.access_token, st, []) := by
  constructor
  · simp [validate_token, hpk, hv]
  · simp [get_token, ht, hpk, validate_token, hv, tokens_access]

/-- A device-registration response with every field present. -/
def sampleDeviceResp : DeviceResp :=
  { status := 200, jsonOk := true, device_code := some "dc", user_code := some "uc",
    verification_uri_complete := some "uri", interval := some 5 }

/-- A world in which every token validates and every exchange succeeds. -/
def envAllValid : Env :=
  { validTok := fun _ _ => true
    refreshResp := fun _ =>
      { status := 200, access_token := some "A2", refresh_token := some "R2" }
    offlineResp := { status := 200, access_token := some "AO", refresh_token := some "RO" }
    deviceResp := sampleDeviceResp
    pollResponses := []
    publicKeyResp := Except.ok "KEY"
    storedTokens := none }

/-- DEVICE-mode configuration on stage TEST with file storage. -/
def cfgDevTest : Config :=
  { authFlow := AuthFlow.DEVICE, stage := Stage.TEST, storageType := StorageType.FILE
    offlineToken := none }

/-- A post-construction manager state holding a token pair. -/
def stSample : MState :=
  { tokens := some { access_token := "AT", refresh_token := some "RT" }
    publicKey := some "PK", store := none }

theorem C2_valid_tokens_no_network_witness :
    validate_token envAllValid stSample
        (some { access_token := "AT", refresh_token := some "RT" }) = Except.ok ()
    ∧ get_token envAllValid cfgDevTest stSample = some (Except.ok "AT", stSample, []) :=
  C2_valid_tokens_no_network envAllValid cfgDevTest stSample
    { access_token := "AT", refresh_token := some "RT" } "PK" rfl rfl rfl

/-- C1: the token-access operations follow the deterministic escalation
policy, short-circuiting on first success.  (1) if the in-memory tokens
validate locally, the current access_token is returned with no further
action; (2) else one refresh-grant exchange runs and, on success, tokens
are replaced in memory, persisted for the active stage, re-validated and
the new access_token returned; (3) else a full re-authorization
(`get_tokens`) runs with the same replace/persist/validate/return
postcondition; (4) if all three fail, the fatal error naming the final
failure cause is raised; and `get_auth` implements the same policy,
returning the access token wrapped in a `BearerAuth`. -/
theorem C1_escalation_policy (env : Env) (cfg : Config) (st : MState) (t : Tokens)
    (pk : String) (ht : st.tokens = some t) (hpk : st.publicKey = some pk) :
    (env.validTok pk t.access_token = true →
      get_token env cfg st = some (Except.ok t.access_token, st, []))
  ∧ (env.validTok pk t.access_token = false →
      ∀ rt, t.refresh_token = some rt →
      (env.refreshResp rt).status = 200 →
      ∀ a2 r2, (env.refreshResp rt).access_token = some a2 →
      (env.refreshResp rt).refresh_token = some r2 →
      env.validTok pk a2 = true →
      ∀ st2, update_local_storage cfg
          { st with tokens := some { access_token := a2, refresh_token := some r2 } }
          cfg.stage = Except.ok st2 →
      get_token env cfg st = some (Except.ok a2, st2, [NetCall.refreshCall])
        ∧ (∃ t2, st2.tokens = some t2 ∧ t2.access_token = a2)
        ∧ (∃ s, st2.store = some s ∧ ∃ tt, s.get cfg.stage = some tt ∧ tt.access_token = a2))
  ∧ (env.validTok pk t.access_token = false →
      ∀ e2 st2 c2, perform_token_refresh env cfg st = (Except.error e2, st2, c2) →
      ∀ st3 c3, get_tokens env cfg st2 = some (Except.ok (), st3, c3) →
      validate_token env st3 none = Except.ok () →
      ∀ t3, st3.tokens = some t3 →
      get_token env cfg st = some (Except.ok t3.access_token, st3, c2 ++ c3))
  ∧ (env.validTok pk t.access_token = false →
      ∀ e2 st2 c2, perform_token_refresh env cfg st = (Except.error e2, st2, c2) →
      ∀ e3 st3 c3, get_tokens env cfg st2 = some (Except.error e3, st3, c3) →
      get_token env cfg st = some (Except.error
        ("Device log in failed, access token expired/invalid, and refresh failed. Error: "
          ++ e3), st3, c2 ++ c3))
  ∧ get_auth env cfg st = (get_token env cfg st).map
      (fun p => (p.1.map (fun a => { token := a }), p.2)) := by
  have hv1 : ∀ hv : env.validTok pk t.access_token = false,
      validate_token env st none = Except.error "Signature verification failed." := by
    intro hv
    simp [validate_token, ht, hpk, hv]
  refine ⟨?_, ?_, ?_, ?_, ?_⟩
  · intro hv
    simp [get_token, ht, hpk, validate_token, hv, tokens_access]
  · intro hv rt hrt h200 a2 r2 ha2 hr2 hv2 st2 hupd
    have hpr : perform_refresh env st none =
        (Except.ok (env.refreshResp rt), [NetCall.refreshCall]) := by
      simp [perform_refresh, ht, hrt, h200]
    cases hfl : cfg.authFlow with
    | DEVICE =>
      rw [update_local_storage, hfl] at hupd
      simp at hupd
      subst hupd
      refine ⟨?_, ⟨_, rfl, rfl⟩, ?_⟩
      · simp [get_token, ht, hpk, validate_token, hv, perform_token_refresh, hpr, ha2, hr2,
          update_local_storage, hfl, tokens_access, hv2]
      · refine ⟨_, rfl, ?_⟩
        rw [get_set_self]
        exact ⟨_, rfl, rfl⟩
    | OFFLINE =>
      rw [update_local_storage, hfl] at hupd
      simp at hupd
      subst hupd
      refine ⟨?_, ⟨_, rfl, rfl⟩, ?_⟩
      · simp [get_token, ht, hpk, validate_token, hv, perform_token_refresh, hpr, ha2, hr2,
          update_local_storage, hfl, tokens_access, hv2, stripRefresh]
      · refine ⟨_, rfl, ?_⟩
        rw [get_stripAll, get_set_self]
        exact ⟨_, rfl, rfl⟩
  · intro hv e2 st2 c2 h2 st3 c3 h3 h3v t3 ht3
    simp [get_token, ht, hpk, hv1 hv, h2, reauth_tier, h3, h3v, tokens_access, ht3]
  · intro hv e2 st2 c2 h2 e3 st3 c3 h3
    simp [get_token, ht, hpk, hv1 hv, h2, reauth_tier, h3]
  · simp only [get_auth, get_token, ht, hpk]
    cases hv : validate_token env st none with
    | ok _ =>
      simp [hv, tokens_access, ht, Except.map]
    | error e1 =>
      rcases hp : perform_token_refresh env cfg st with ⟨r2, st2, c2⟩
      cases r2 with
      | ok _ =>
        cases hv2 : validate_token env st2 none with
        | ok _ =>
          cases hta : tokens_access st2 with
          | ok a => simp [hv, hp, hv2, hta, Except.map]
          | error e => simp [hv, hp, hv2, hta, Except.map]
        | error e2 =>
          rcases hrt : reauth_tier env cfg st2 c2 with _ | ⟨r3, st3, c3⟩
          · simp [hv, hp, hv2, hrt]
          · simp [hv, hp, hv2, hrt]
      | error e2 =>
        rcases hrt : reauth_tier env cfg st2 c2 with _ | ⟨r3, st3, c3⟩
        · simp [hv, hp, hrt]
        · simp [hv, hp, hrt]

/-- A world in which only the refreshed token "A2" validates. -/
def envTier2 : Env :=
  { envAllValid with validTok := fun _ a => a == "A2" }

/-- A world in which refresh fails (HTTP 500) and only the device-flow
token "A3" validates. -/
def envTier3 : Env :=
  { envAllValid with
    validTok := fun _ a => a == "A3"
    refreshResp := fun _ => { status := 500, access_token := none, refresh_token := none }
    pollResponses := [{ error := none, access_token := some "A3", refresh_token := some "R3" }] }

/-- A world in which nothing validates, refresh fails and the device flow
ends with a terminal error. -/
def envTier4 : Env :=
  { envAllValid with
    validTok := fun _ _ => false
    refreshResp := fun _ => { status := 500, access_token := none, refresh_token := none }
    pollResponses :=
      [{ error := some "access_denied", access_token := none, refresh_token := none }] }

/-- The state after a successful tier-2 refresh in `envTier2`. -/
def stTier2 : MState :=
  { tokens := some { access_token := "A2", refresh_token := some "R2" }
    publicKey := some "PK"
    store := some { TEST := some { access_token := "A2", refresh_token := some "R2" },
                    DEV := none, STAGE := none, PROD := none } }

/-- The state after a successful tier-3 device flow in `envTier3`. -/
def stTier3 : MState :=
  { tokens := some { access_token := "A3", refresh_token := some "R3" }
    publicKey := some "PK"
    store := some { TEST := some { access_token := "A3", refresh_token := some "R3" },
                    DEV := none, STAGE := none, PROD := none } }

theorem C1_escalation_policy_witness :
    (get_token envAllValid cfgDevTest stSample = some (Except.ok "AT", stSample, []))
  ∧ ((get_token envTier2 cfgDevTest stSample
        = some (Except.ok "A2", stTier2, [NetCall.refreshCall]))
      ∧ (∃ t2, stTier2.tokens = some t2 ∧ t2.access_token = "A2")
      ∧ (∃ s, stTier2.store = some s
          ∧ ∃ tt, s.get cfgDevTest.stage = some tt ∧ tt.access_token = "A2"))
  ∧ (get_token envTier3 cfgDevTest stSample = some (Except.ok "A3", stTier3,
        [NetCall.refreshCall, NetCall.deviceInitCall, NetCall.devicePollCall]))
  ∧ (get_token envTier4 cfgDevTest stSample = some (Except.error
        ("Device log in failed, access token expired/invalid, and refresh failed. Error: "
          ++ "Failed to retrieve tokens from device authorisation flow!"), stSample,
        [NetCall.refreshCall, NetCall.deviceInitCall, NetCall.devicePollCall]))
  ∧ (get_auth envAllValid cfgDevTest stSample
      = (get_token envAllValid cfgDevTest stSample).map
        (fun p => (p.1.map (fun a => { token := a }), p.2))) := by
  refine ⟨?_, ?_, ?_, ?_, ?_⟩
  · exact (C1_escalation_policy envAllValid cfgDevTest stSample
      { access_token := "AT", refresh_token := some "RT" } "PK" rfl rfl).1 rfl
  · exact (C1_escalation_policy envTier2 cfgDevTest stSample
      { access_token := "AT", refresh_token := some "RT" } "PK" rfl rfl).2.1
      rfl "RT" rfl rfl "A2" "R2" rfl rfl rfl stTier2 rfl
  · exact (C1_escalation_policy envTier3 cfgDevTest stSample
      { access_token := "AT", refresh_token := some "RT" } "PK" rfl rfl).2.2.1
      rfl "Something went wrong during token refresh. Status code: 500." stSample
      [NetCall.refreshCall] rfl stTier3 [NetCall.deviceInitCall, NetCall.devicePollCall]
      rfl rfl { access_token := "A3", refresh_token := some "R3" } rfl
  · exact (C1_escalation_policy envTier4 cfgDevTest stSample
      { access_token := "AT", refresh_token := some "RT" } "PK" rfl rfl).2.2.2.1
      rfl "Something went wrong during token refresh. Status code: 500." stSample
      [NetCall.refreshCall] rfl
      "Failed to retrieve tokens from device authorisation flow!" stSample
      [NetCall.deviceInitCall, NetCall.devicePollCall] rfl
  · exact (C1_escalation_policy envAllValid cfgDevTest stSample
      { access_token := "AT", refresh_token := some "RT" } "PK" rfl rfl).2.2.2.2

/-! ### JSON lemmas -/

theorem entryJson_eq (b : Bool) (n : String) (e : Option Tokens) :
    entryJson b n e = (n, match e with
      | some t => t.toJson b
      | none => Json.null) := by
  cases e <;> rfl

theorem parseTokens_toJson (t : Tokens) (b : Bool) :
    parseTokens (t.toJson b) = some t := by
  rcases t with ⟨a, r⟩
  cases r with
  | none => cases b <;> simp [Tokens.toJson, parseTokens, lookupField]
  | some r => cases b <;> simp [Tokens.toJson, parseTokens, lookupField]

theorem parseEntry_head (b : Bool) (name : String) (e : Option Tokens)
    (rest : List (String × Json)) :
    parseEntry (entryJson b name e :: rest) name = some e := by
  rcases e with _ | ⟨a, r⟩
  · simp [entryJson, parseEntry, lookupField]
  · rcases r with _ | r <;> cases b <;>
      simp [entryJson, parseEntry, lookupField, Tokens.toJson, parseTokens]

theorem lookupField_entry_ne (b : Bool) (n : String) (e : Option Tokens)
    (rest : List (String × Json)) (name : String) (h : n ≠ name) :
    lookupField (entryJson b n e :: rest) name = lookupField rest name := by
  rcases e with _ | t <;> simp [entryJson, lookupField, h]

theorem parseEntry_congr (ss ss' : List (String × Json)) (name : String)
    (h : lookupField ss name = lookupField ss' name) :
    parseEntry ss name = parseEntry ss' name := by
  unfold parseEntry
  rw [h]

/-- Writing a `StageTokens` (with or without `exclude_none`) and parsing
it back recovers the same logical store: stage entries dropped to `null`
parse back to `None`, and a dropped `refresh_token` key parses back to
`None`. -/
theorem parse_toJson (s : StageTokens) (b : Bool) :
    parseStageTokens (s.toJson b) = some s := by
  rcases s with ⟨eT, eD, eS, eP⟩
  have hT : parseEntry [entryJson b "TEST" eT, entryJson b "DEV" eD,
      entryJson b "STAGE" eS, entryJson b "PROD" eP] "TEST" = some eT :=
    parseEntry_head b "TEST" eT _
  have hD : parseEntry [entryJson b "TEST" eT, entryJson b "DEV" eD,
      entryJson b "STAGE" eS, entryJson b "PROD" eP] "DEV" = some eD := by
    rw [parseEntry_congr _ [entryJson b "DEV" eD, entryJson b "STAGE" eS,
      entryJson b "PROD" eP] "DEV" (lookupField_entry_ne b "TEST" eT _ "DEV" (by decide))]
    exact parseEntry_head b "DEV" eD _
  have hS : parseEntry [entryJson b "TEST" eT, entryJson b "DEV" eD,
      entryJson b "STAGE" eS, entryJson b "PROD" eP] "STAGE" = some eS := by
    rw [parseEntry_congr _ [entryJson b "DEV" eD, entryJson b "STAGE" eS,
      entryJson b "PROD" eP] "STAGE" (lookupField_entry_ne b "TEST" eT _ "STAGE" (by decide))]
    rw [parseEntry_congr _ [entryJson b "STAGE" eS, entryJson b "PROD" eP] "STAGE"
      (lookupField_entry_ne b "DEV" eD _ "STAGE" (by decide))]
    exact parseEntry_head b "STAGE" eS _
  have hP : parseEntry [entryJson b "TEST" eT, entryJson b "DEV" eD,
      entryJson b "STAGE" eS, entryJson b "PROD" eP] "PROD" = some eP := by
    rw [parseEntry_congr _ [entryJson b "DEV" eD, entryJson b "STAGE" eS,
      entryJson b "PROD" eP] "PROD" (lookupField_entry_ne b "TEST" eT _ "PROD" (by decide))]
    rw [parseEntry_congr _ [entryJson b "STAGE" eS, entryJson b "PROD" eP] "PROD"
      (lookupField_entry_ne b "DEV" eD _ "PROD" (by decide))]
    rw [parseEntry_congr _ [entryJson b "PROD" eP] "PROD"
      (lookupField_entry_ne b "STAGE" eS _ "PROD" (by decide))]
    exact parseEntry_head b "PROD" eP _
  simp [StageTokens.toJson, parseStageTokens, lookupField, hT, hD, hS, hP]

theorem entryJson_no_refresh (e : Option Tokens)
    (h : ∀ t, e = some t → t.refresh_token = none) (name : String) :
    (entryJson true name e).2.hasKey "refresh_token" = false := by
  cases e with
  | none => simp [entryJson, Json.hasKey]
  | some t =>
    have ht := h t rfl
    simp [entryJson, Tokens.toJson, ht, Json.hasKey]

/-- A store all of whose entries have no refresh token serialises (with
`exclude_none`) to JSON in which no `refresh_token` field appears
anywhere. -/
theorem stripped_store_no_refresh (s : StageTokens)
    (h : ∀ g t, s.get g = some t → t.refresh_token = none) :
    (s.toJson true).hasKey "refresh_token" = false := by
  have hT := entryJson_no_refresh s.TEST (fun t ht => h Stage.TEST t ht) "TEST"
  have hD := entryJson_no_refresh s.DEV (fun t ht => h Stage.DEV t ht) "DEV"
  have hS := entryJson_no_refresh s.STAGE (fun t ht => h Stage.STAGE t ht) "STAGE"
  have hP := entryJson_no_refresh s.PROD (fun t ht => h Stage.PROD t ht) "PROD"
  simp only [StageTokens.toJson, entryJson_eq] at hT hD hS hP ⊢
  simp [Json.hasKey, hT, hD, hS, hP]

/-- C3: in OFFLINE mode, every successful persistence write strips every
`refresh_token` across all stages before the write: each stored entry has
no refresh token, the written JSON contains no `refresh_token` key
anywhere, and reloading the written structure therefore yields absent
refresh tokens for every stage. -/
theorem C3_offline_write_strips_refresh (cfg : Config) (st : MState) (stage : Stage)
    (st' : MState) (hoff : cfg.authFlow = AuthFlow.OFFLINE)
    (hupd : update_local_storage cfg st stage = Except.ok st') :
    ∃ s, st'.store = some s
      ∧ (∀ g t, s.get g = some t → t.refresh_token = none)
      ∧ (s.toJson true).hasKey "refresh_token" = false
      ∧ parseStageTokens (s.toJson true) = some s := by
  rcases hst : st.tokens with _ | t
  · rw [update_local_storage, hst] at hupd
    cases hupd
  · rw [update_local_storage, hst] at hupd
    rw [hoff] at hupd
    simp at hupd
    subst hupd
    refine ⟨_, rfl, ?_, ?_, ?_⟩
    · intro g u hgu
      rw [get_stripAll] at hgu
      rcases Option.map_eq_some'.mp hgu with ⟨v, _, hv⟩
      rw [← hv]
      rfl
    · apply stripped_store_no_refresh
      intro g u hgu
      rw [get_stripAll] at hgu
      rcases Option.map_eq_some'.mp hgu with ⟨v, _, hv⟩
      rw [← hv]
      rfl
    · exact parse_toJson _ true

/-- OFFLINE-mode configuration on stage TEST with file storage. -/
def cfgOffTest : Config :=
  { authFlow := AuthFlow.OFFLINE, stage := Stage.TEST, storageType := StorageType.FILE
    offlineToken := some "OT" }

/-- A store holding a DEV entry that still carries a refresh token. -/
def storeC9 : StageTokens :=
  { TEST := none, DEV := some { access_token := "B", refresh_token := some "RB" }
    STAGE := none, PROD := none }

/-- A manager state about to persist over `storeC9`. -/
def stC9 : MState :=
  { tokens := some { access_token := "A", refresh_token := some "RA" }
    publicKey := some "PK", store := some storeC9 }

theorem C3_offline_write_strips_refresh_witness :
    cfgOffTest.authFlow = AuthFlow.OFFLINE
    ∧ ∃ st', update_local_storage cfgOffTest stC9 Stage.TEST = Except.ok st'
      ∧ ∃ s, st'.store = some s
        ∧ (∀ g t, s.get g = some t → t.refresh_token = none)
        ∧ (s.toJson true).hasKey "refresh_token" = false
        ∧ parseStageTokens (s.toJson true) = some s := by
  refine ⟨rfl, ?_⟩
  refine ⟨_, rfl, ?_⟩
  exact C3_offline_write_strips_refresh cfgOffTest stC9 Stage.TEST _ rfl rfl

/-- C9 counterexample: in OFFLINE mode a persistence write is *not* a pure
single-entry replacement — writing stage TEST over a store whose untouched
DEV entry still holds a refresh token strips that refresh token, so
writing then reloading does not yield an identical DEV entry. -/
theorem C9_counterexample_offline_changes_untouched_stage :
    (∃ st', update_local_storage cfgOffTest stC9 cfgOffTest.stage = Except.ok st'
      ∧ ∃ s, st'.store = some s
        ∧ parseStageTokens (s.toJson true) = some s
        ∧ Stage.DEV ≠ cfgOffTest.stage
        ∧ s.get Stage.DEV ≠ storeC9.get Stage.DEV) := by
  refine ⟨_, rfl, _, rfl, ?_, by decide, by decide⟩
  exact parse_toJson _ true

/-- C9 (amended): every persistence write is read-modify-write — the
existing store (or the empty one when missing/unparsable) is reloaded, the
active stage's entry is replaced by the current tokens and the whole
structure written back, and writing then reloading is the identity; in
DEVICE mode every non-targeted stage entry is preserved exactly, while in
OFFLINE mode non-targeted entries are preserved except that their
refresh_token fields are stripped. -/
theorem C9_read_modify_write_frame (cfg : Config) (st : MState) (stage : Stage)
    (st' : MState) (hupd : update_local_storage cfg st stage = Except.ok st') :
    ∃ s, st'.store = some s
      ∧ parseStageTokens (s.toJson true) = some s
      ∧ (cfg.authFlow = AuthFlow.DEVICE →
          s.get stage = st.tokens
          ∧ ∀ g, g ≠ stage →
            s.get g = (match st.store with
              | some base => base
              | none => emptyStages).get g)
      ∧ (cfg.authFlow = AuthFlow.OFFLINE →
          s.get stage = st.tokens.map stripRefresh
          ∧ ∀ g, g ≠ stage →
            s.get g = ((match st.store with
              | some base => base
              | none => emptyStages).get g).map stripRefresh) := by
  rcases hst : st.tokens with _ | t
  · rw [update_local_storage, hst] at hupd
    cases hupd
  · rw [update_local_storage, hst] at hupd
    by_cases hoff : cfg.authFlow = AuthFlow.OFFLINE
    · simp only [hoff, if_true, Except.ok.injEq, reduceIte] at hupd
      subst hupd
      refine ⟨_, rfl, parse_toJson _ true, ?_, ?_⟩
      · intro hdev
        rw [hdev] at hoff
        exact absurd hoff (by decide)
      · intro _
        constructor
        · rw [get_stripAll, get_set_self]
        · intro g hg
          rw [get_stripAll, get_set_ne _ _ _ _ hg]
    · simp only [hoff, if_false, Except.ok.injEq, reduceIte] at hupd
      subst hupd
      refine ⟨_, rfl, parse_toJson _ true, ?_, ?_⟩
      · intro _
        constructor
        · rw [get_set_self]
        · intro g hg
          rw [get_set_ne _ _ _ _ hg]
      · intro h
        cases hoff h

theorem C9_read_modify_write_frame_witness :
    ∃ st', update_local_storage cfgOffTest stC9 Stage.TEST = Except.ok st'
      ∧ ∃ s, st'.store = some s
        ∧ parseStageTokens (s.toJson true) = some s
        ∧ (cfgOffTest.authFlow = AuthFlow.DEVICE →
            s.get Stage.TEST = stC9.tokens
            ∧ ∀ g, g ≠ Stage.TEST →
              s.get g = (match stC9.store with
                | some base => base
                | none => emptyStages).get g)
        ∧ (cfgOffTest.authFlow = AuthFlow.OFFLINE →
            s.get Stage.TEST = stC9.tokens.map stripRefresh
            ∧ ∀ g, g ≠ Stage.TEST →
              s.get g = ((match stC9.store with
                | some base => base
                | none => emptyStages).get g).map stripRefresh) :=
  ⟨_, rfl, C9_read_modify_write_frame cfgOffTest stC9 Stage.TEST _ rfl⟩

/-! ### C6: file persistence format -/

theorem entryJson_fst (b : Bool) (n : String) (e : Option Tokens) :
    (entryJson b n e).1 = n := by
  cases e <;> rfl

/-- Shape check of a serialised token object: `access_token` is a string
and no keys other than `access_token` / `refresh_token` occur. -/
def isTokenJson : Json → Bool
  | Json.obj fs =>
    (match lookupField fs "access_token" with
     | some (Json.str _) => true
     | _ => false)
    && fs.all (fun p => p.1 == "access_token" || p.1 == "refresh_token")
  | _ => false

theorem isTokenJson_toJson (t : Tokens) (b : Bool) :
    isTokenJson (t.toJson b) = true := by
  rcases t with ⟨a, r⟩
  rcases r with _ | r <;> cases b <;> simp [Tokens.toJson, isTokenJson, lookupField]

/-- The serialised name of a stage (the `str`-enum value). -/
def stageName : Stage → String
  | Stage.TEST => "TEST"
  | Stage.DEV => "DEV"
  | Stage.STAGE => "STAGE"
  | Stage.PROD => "PROD"

/-- The file's `stages` dict exactly as the source holds it: pydantic's
`Dict[Stage, Optional[Tokens]]` keeps only the keys present in the parsed
file, in file order.  (The total four-field `StageTokens` record above
canonicalises absent and `null` entries — adequate for the per-entry
properties read through `stages.get`, which treats both as `None`, but
not for the exact key set of a write.) -/
def baseOf : Option (List (Stage × Option Tokens)) → List (Stage × Option Tokens)
  | some d => d
  | none =>
    [(Stage.TEST, none), (Stage.DEV, none), (Stage.STAGE, none), (Stage.PROD, none)]

/-- Python dict assignment `existing_tokens.stages[stage] = self.tokens`:
replaces the value of a present key in place, else appends the new key in
insertion order. -/
def dictSet : List (Stage × Option Tokens) → Stage → Option Tokens →
    List (Stage × Option Tokens)
  | [], k, v => [(k, v)]
  | (k', v') :: rest, k, v =>
    if k' = k then (k, v) :: rest else (k', v') :: dictSet rest k v

/-- The OFFLINE-mode strip loop over the dict's entries. -/
def stripIfOffline (flow : AuthFlow) (d : List (Stage × Option Tokens)) :
    List (Stage × Option Tokens) :=
  if flow = AuthFlow.OFFLINE then d.map (fun p => (p.1, p.2.map stripRefresh)) else d

/-- Serialisation of the stages dict: the single `stages` field holding
one key per dict entry, `None` entries kept as `null` (dict values are
not dropped by `exclude_none`). -/
def stagesDictJson (excludeNone : Bool) (d : List (Stage × Option Tokens)) : Json :=
  Json.obj [("stages",
    Json.obj (d.map (fun p => entryJson excludeNone (stageName p.1) p.2)))]

/-- The JSON text `update_local_storage` writes, at the fidelity of the
parsed dict: the existing file's `stages` dict when parsable (holding
exactly the file's keys), else the fresh four-entry all-`None` dict; the
active stage's entry replaced or appended; every refresh token stripped
in OFFLINE mode; the whole structure serialised with
`exclude_none=True`. -/
def updateWriteJson (flow : AuthFlow) (existing : Option (List (Stage × Option Tokens)))
    (stage : Stage) (tokens : Tokens) : Json :=
  stagesDictJson true (stripIfOffline flow (dictSet (baseOf existing) stage (some tokens)))

/-- Keys of the inner `stages` object of a written JSON value. -/
def Json.stagesKeys : Json → List String
  | Json.obj fs =>
    (match lookupField fs "stages" with
     | some (Json.obj ss) => ss.map Prod.fst
     | _ => [])
  | _ => []

theorem stagesDictJson_shape (d : List (Stage × Option Tokens)) :
    ∀ p ∈ d.map (fun q => entryJson true (stageName q.1) q.2),
      (∃ g, p.1 = stageName g) ∧ (p.2 = Json.null ∨ isTokenJson p.2 = true) := by
  intro p hp
  rcases List.mem_map.mp hp with ⟨⟨g, e⟩, hmem, rfl⟩
  refine ⟨⟨g, entryJson_fst true (stageName g) e⟩, ?_⟩
  cases e with
  | none => left; simp [entryJson]
  | some t => right; simp [entryJson, isTokenJson_toJson]

theorem dictSet_mem (d : List (Stage × Option Tokens)) (k : Stage) (v : Option Tokens) :
    (k, v) ∈ dictSet d k v := by
  induction d with
  | nil => simp [dictSet]
  | cons hd rest ih =>
    rcases hd with ⟨k', v'⟩
    by_cases h : k' = k
    · simp [dictSet, h]
    · simp only [dictSet, if_neg h]
      exact List.mem_cons_of_mem _ ih

/-- C6 counterexample: the written JSON does not have one top-level key
per stage name — every write wraps the per-stage map in a single
top-level `stages` key, and a write over a parsable-but-partial store
(such as a file holding an empty `stages` object) contains only the
active stage's key. -/
theorem C6_counterexample_stages_wrapper :
    resetStorageJson.topKeys = ["stages"]
    ∧ resetStorageJson.topKeys ≠ ["TEST", "DEV", "STAGE", "PROD"]
    ∧ (updateWriteJson AuthFlow.DEVICE (some []) Stage.TEST
        { access_token := "A", refresh_token := some "R" }).topKeys = ["stages"]
    ∧ (updateWriteJson AuthFlow.DEVICE (some []) Stage.TEST
        { access_token := "A", refresh_token := some "R" }).stagesKeys = ["TEST"]
    ∧ (updateWriteJson AuthFlow.DEVICE (some []) Stage.TEST
        { access_token := "A", refresh_token := some "R" }).stagesKeys
        ≠ ["TEST", "DEV", "STAGE", "PROD"]
    ∧ (∃ st', update_local_storage cfgDevTest stSample Stage.TEST = Except.ok st'
        ∧ ∃ s, st'.store = some s ∧ (s.toJson true).topKeys = ["stages"]) := by
  refine ⟨rfl, by decide, rfl, rfl, by decide, _, rfl, _, rfl, rfl⟩

/-- C6 (amended): every file write of the token store is a JSON object
with the single top-level key `stages`, whose value is an object holding
one key per entry of the written dict — each key a stage name, the active
stage's key always present with a token-object value, and every value
either `null` or a token object with `access_token` and optionally
`refresh_token`; all four stage names appear exactly when the existing
store was missing or unparsable, and the reset write holds all four stage
names with `null` values. -/
theorem C6_file_persistence_format (flow : AuthFlow)
    (existing : Option (List (Stage × Option Tokens))) (stage : Stage) (tokens : Tokens) :
    (∃ entries, updateWriteJson flow existing stage tokens
        = Json.obj [("stages", Json.obj entries)]
      ∧ (∀ p ∈ entries, (∃ g, p.1 = stageName g)
          ∧ (p.2 = Json.null ∨ isTokenJson p.2 = true))
      ∧ (∃ q ∈ entries, q.1 = stageName stage ∧ isTokenJson q.2 = true))
    ∧ (existing = none →
        (updateWriteJson flow existing stage tokens).stagesKeys
          = ["TEST", "DEV", "STAGE", "PROD"])
    ∧ resetStorageJson = Json.obj [("stages", Json.obj
        [("TEST", Json.null), ("DEV", Json.null),
         ("STAGE", Json.null), ("PROD", Json.null)])] := by
  refine ⟨⟨_, rfl, stagesDictJson_shape _, ?_⟩, ?_, rfl⟩
  · have hmem : (stage, some tokens) ∈ dictSet (baseOf existing) stage (some tokens) :=
      dictSet_mem _ _ _
    by_cases hoff : flow = AuthFlow.OFFLINE
    · refine ⟨entryJson true (stageName stage) (some (stripRefresh tokens)), ?_, ?_, ?_⟩
      · refine List.mem_map.mpr ⟨(stage, some (stripRefresh tokens)), ?_, rfl⟩
        rw [stripIfOffline, if_pos hoff]
        exact List.mem_map.mpr ⟨(stage, some tokens), hmem, rfl⟩
      · exact entryJson_fst true (stageName stage) (some (stripRefresh tokens))
      · simp [entryJson, isTokenJson_toJson]
    · refine ⟨entryJson true (stageName stage) (some tokens), ?_, ?_, ?_⟩
      · refine List.mem_map.mpr ⟨(stage, some tokens), ?_, rfl⟩
        rw [stripIfOffline, if_neg hoff]
        exact hmem
      · exact entryJson_fst true (stageName stage) (some tokens)
      · simp [entryJson, isTokenJson_toJson]
  · intro h
    subst h
    cases stage <;> by_cases hoff : flow = AuthFlow.OFFLINE <;>
      simp [updateWriteJson, baseOf, dictSet, stripIfOffline, hoff, stagesDictJson,
        Json.stagesKeys, lookupField, entryJson_fst, stageName]

theorem C6_file_persistence_format_witness :
    (∃ entries, updateWriteJson AuthFlow.DEVICE none Stage.TEST
        { access_token := "A", refresh_token := some "R" }
        = Json.obj [("stages", Json.obj entries)]
      ∧ (∀ p ∈ entries, (∃ g, p.1 = stageName g)
          ∧ (p.2 = Json.null ∨ isTokenJson p.2 = true))
      ∧ (∃ q ∈ entries, q.1 = stageName Stage.TEST ∧ isTokenJson q.2 = true))
    ∧ (updateWriteJson AuthFlow.DEVICE none Stage.TEST
        { access_token := "A", refresh_token := some "R" }).stagesKeys
        = ["TEST", "DEV", "STAGE", "PROD"]
    ∧ resetStorageJson = Json.obj [("stages", Json.obj
        [("TEST", Json.null), ("DEV", Json.null),
         ("STAGE", Json.null), ("PROD", Json.null)])] := by
  have h := C6_file_persistence_format AuthFlow.DEVICE none Stage.TEST
    { access_token := "A", refresh_token := some "R" }
  exact ⟨h.1, h.2.1 rfl, h.2.2⟩

/-! ### C7: device registration and HTTP status -/

/-- The same registration response with a different HTTP status. -/
def DeviceResp.withStatus (d : DeviceResp) (s : Nat) : DeviceResp :=
  { d with status := s }

/-- A complete registration grant delivered with a non-success HTTP
status. -/
def deviceResp400 : DeviceResp :=
  { sampleDeviceResp with status := 400 }

/-- A registration response whose body is not JSON. -/
def deviceRespBadJson : DeviceResp :=
  { sampleDeviceResp with jsonOk := false }

/-- A JSON registration response missing `device_code`. -/
def deviceRespNoCode : DeviceResp :=
  { sampleDeviceResp with device_code := none }

/-- C7 counterexample: a non-success (400) registration response whose
JSON body nevertheless contains the grant fields is accepted — no error
propagates, because `initiate_device_auth_flow` never checks the HTTP
status code. -/
theorem C7_counterexample_non_success_accepted :
    deviceResp400.status ≠ 200
    ∧ device_registration deviceResp400 = Except.ok ("dc", "uc", "uri", 5) :=
  ⟨by decide, rfl⟩

/-- C7 (amended): the registration request is attempted exactly once and
the HTTP status of its response is never inspected — the outcome is
invariant under changing the status; a failure propagates immediately
(unretried) only when the body fails to parse as JSON or lacks a grant
field such as `device_code`. -/
theorem C7_registration_status_ignored (d : DeviceResp) (s : Nat) :
    device_registration (d.withStatus s) = device_registration d
    ∧ (d.jsonOk = false → device_registration d = Except.error "JSONDecodeError")
    ∧ (d.jsonOk = true → d.device_code = none →
        device_registration d = Except.error "KeyError: device_code") := by
  rcases d with ⟨st0, jok, dc, uc, vu, iv⟩
  refine ⟨?_, ?_, ?_⟩
  · cases jok <;> rfl
  · intro h
    simp only at h
    simp [device_registration, initiate_device_auth_flow, h]
  · intro h1 h2
    simp only at h1 h2
    simp [device_registration, initiate_device_auth_flow, h1, h2]

theorem C7_registration_status_ignored_witness :
    (device_registration (sampleDeviceResp.withStatus 400)
      = device_registration sampleDeviceResp)
    ∧ (device_registration deviceRespBadJson = Except.error "JSONDecodeError")
    ∧ (device_registration deviceRespNoCode = Except.error "KeyError: device_code") :=
  ⟨(C7_registration_status_ignored sampleDeviceResp 400).1,
   (C7_registration_status_ignored deviceRespBadJson 0).2.1 rfl,
   (C7_registration_status_ignored deviceRespNoCode 0).2.2 rfl rfl⟩

/-! ### C8: refresh-token presence in the held pair -/

/-- After any successful `update_local_storage`, the in-memory tokens are
the pair that was just set — stripped of the refresh token in OFFLINE mode
(the in-place strip aliases `self.tokens`). -/
theorem update_tokens_shape (cfg : Config) (st : MState) (stage : Stage) (st' : MState)
    (h : update_local_storage cfg st stage = Except.ok st') :
    ∃ t, st.tokens = some t
      ∧ st'.tokens = some (if cfg.authFlow = AuthFlow.OFFLINE then stripRefresh t else t) := by
  rcases hst : st.tokens with _ | t
  · rw [update_local_storage, hst] at h
    cases h
  · rw [update_local_storage, hst] at h
    refine ⟨t, rfl, ?_⟩
    by_cases hoff : cfg.authFlow = AuthFlow.OFFLINE
    · simp only [hoff, reduceIte, Except.ok.injEq] at h
      rw [← h]
      simp [hoff]
    · simp only [hoff, reduceIte, Except.ok.injEq] at h
      rw [← h]
      simp [hoff]

/-- C8 (amended): after every successful `get_tokens`, the manager holds a
token pair (whose access_token is a string by construction); in OFFLINE
mode that pair never carries a refresh token; in DEVICE mode a pair
acquired through a fresh device flow always carries one — but a pair
loaded from the cache may lack it, so refresh_token is not guaranteed
present in DEVICE mode in general. -/
theorem C8_refresh_presence (env : Env) (cfg : Config) (st : MState)
    (st' : MState) (c : List NetCall)
    (hok : get_tokens env cfg st = some (Except.ok (), st', c)) :
    (∃ t, st'.tokens = some t)
    ∧ (cfg.authFlow = AuthFlow.OFFLINE →
        ∀ t, st'.tokens = some t → t.refresh_token = none)
    ∧ (cfg.authFlow = AuthFlow.DEVICE →
        (retrieve_local_tokens env cfg st cfg.stage).1 = none →
        ∀ t, st'.tokens = some t → ∃ r, t.refresh_token = some r) := by
  unfold get_tokens at hok
  rcases hr : retrieve_local_tokens env cfg st cfg.stage with ⟨ret, c0⟩
  rw [hr] at hok
  cases ret with
  | some t0 =>
    cases hu : update_local_storage cfg { st with tokens := some t0 } cfg.stage with
    | error e =>
      simp only [hu] at hok
      simp at hok
    | ok st1 =>
      simp only [hu] at hok
      simp at hok
      obtain ⟨hst', -, -⟩ := hok
      obtain ⟨t1, -, hshape⟩ := update_tokens_shape cfg _ cfg.stage st1 hu
      subst hst'
      refine ⟨⟨_, hshape⟩, ?_, ?_⟩
      · intro hoff t htok
        rw [hshape] at htok
        rw [hoff] at htok
        simp at htok
        rw [← htok]
        rfl
      · intro _ hnone
        simp at hnone
  | none =>
    cases hfl : cfg.authFlow with
    | DEVICE =>
      rw [hfl] at hok
      cases hd : device_registration env.deviceResp with
      | error e =>
        simp only [hd] at hok
        simp at hok
      | ok reg =>
        simp only [hd] at hok
        cases hp : await_device_auth_flow_completion env.pollResponses with
        | stillPolling =>
          simp only [hp] at hok
          cases hok
        | failure m n =>
          simp only [hp] at hok
          simp at hok
        | success resp n =>
          simp only [hp] at hok
          rcases ha : resp.access_token with _ | a
          · simp only [ha] at hok
            simp at hok
          · rcases hrf : resp.refresh_token with _ | r
            · simp only [ha, hrf] at hok
              simp at hok
            · simp only [ha, hrf] at hok
              cases hu : update_local_storage cfg
                  { st with tokens := some { access_token := a, refresh_token := some r } }
                  cfg.stage with
              | error e =>
                simp only [hu] at hok
                simp at hok
              | ok st2 =>
                simp only [hu] at hok
                simp at hok
                obtain ⟨hst', -, -⟩ := hok
                obtain ⟨t2, ht2, hshape⟩ := update_tokens_shape cfg _ cfg.stage st2 hu
                simp at ht2
                subst hst'
                rw [← ht2] at hshape
                rw [hfl] at hshape
                simp at hshape
                refine ⟨⟨_, hshape⟩, ?_, ?_⟩
                · intro hoff
                  exact absurd hoff (by decide)
                · intro _ _ t htok
                  rw [hshape] at htok
                  simp at htok
                  rw [← htok]
                  exact ⟨r, rfl⟩
    | OFFLINE =>
      rw [hfl] at hok
      rcases ho : perform_offline_refresh env with ⟨res, calls⟩
      rw [ho] at hok
      cases res with
      | error e =>
        simp at hok
      | ok resp =>
        rcases ha : resp.access_token with _ | a
        · simp only [ha] at hok
          simp at hok
        · rcases hrf : resp.refresh_token with _ | r
          · simp only [ha, hrf] at hok
            simp at hok
          · simp only [ha, hrf] at hok
            cases hu : update_local_storage cfg
                { st with tokens := some { access_token := a, refresh_token := some r } }
                cfg.stage with
            | error e =>
              simp only [hu] at hok
              simp at hok
            | ok st2 =>
              simp only [hu] at hok
              simp at hok
              obtain ⟨hst', -, -⟩ := hok
              obtain ⟨t2, ht2, hshape⟩ := update_tokens_shape cfg _ cfg.stage st2 hu
              simp at ht2
              subst hst'
              rw [← ht2] at hshape
              rw [hfl] at hshape
              simp at hshape
              refine ⟨⟨_, hshape⟩, ?_, ?_⟩
              · intro _ t htok
                rw [hshape] at htok
                simp at htok
                rw [← htok]
                rfl
              · intro hdev
                exact absurd hdev (by decide)

/-- An empty manager state before any acquisition. -/
def st0Off : MState := { tokens := none, publicKey := some "PK", store := none }

/-- The state after a successful OFFLINE acquisition in `envAllValid`. -/
def stOff' : MState :=
  { tokens := some { access_token := "AO", refresh_token := none }
    publicKey := some "PK"
    store := some { TEST := some { access_token := "AO", refresh_token := none }
                    DEV := none, STAGE := none, PROD := none } }

theorem C8_refresh_presence_witness :
    (∃ t, stOff'.tokens = some t)
    ∧ (cfgOffTest.authFlow = AuthFlow.OFFLINE →
        ∀ t, stOff'.tokens = some t → t.refresh_token = none)
    ∧ (cfgOffTest.authFlow = AuthFlow.DEVICE →
        (retrieve_local_tokens envAllValid cfgOffTest st0Off cfgOffTest.stage).1 = none →
        ∀ t, stOff'.tokens = some t → ∃ r, t.refresh_token = some r) :=
  C8_refresh_presence envAllValid cfgOffTest st0Off stOff' [NetCall.offlineRefreshCall] rfl

/-- A cached TEST entry carrying no refresh token (as an OFFLINE-mode run
would have left behind). -/
def storeC8 : StageTokens :=
  { TEST := some { access_token := "A", refresh_token := none }
    DEV := none, STAGE := none, PROD := none }

/-- A fresh DEVICE-mode manager state over that cache. -/
def stC8 : MState := { tokens := none, publicKey := some "PK", store := some storeC8 }

/-- The state `get_tokens` produces from `stC8`. -/
def stC8' : MState :=
  { tokens := some { access_token := "A", refresh_token := none }
    publicKey := some "PK", store := some storeC8 }

/-- C8 counterexample: in DEVICE mode a successful token acquisition (from
a cached entry that validates but carries no refresh token) leaves the
manager holding a pair whose refresh_token is absent — refuting
"refresh_token ... present otherwise". -/
theorem C8_counterexample_device_pair_without_refresh :
    cfgDevTest.authFlow = AuthFlow.DEVICE
    ∧ get_tokens envAllValid cfgDevTest stC8 = some (Except.ok (), stC8', [])
    ∧ stC8'.tokens = some { access_token := "A", refresh_token := none } :=
  ⟨rfl, rfl, rfl⟩

/-! ### C10: conflicting storage configuration -/

/-- C10: constructing the manager with both a local storage file path and
a local storage object raises the configuration `ValueError` immediately,
with an empty network trace — before any network call. -/
theorem C10_conflicting_storage (env : Env) (a : InitArgs)
    (hloc : a.local_storage_location.isSome = true)
    (hobj : a.local_storage_object_provided = true) :
    init env a
      = some (Except.error "Can't specify both local storage file and object.", []) := by
  unfold init
  rw [if_pos ⟨hloc, hobj⟩]

/-- Constructor arguments supplying both storage targets. -/
def argsBoth : InitArgs :=
  { stage := "TEST", auth_flow := AuthFlow.DEVICE, offline_token := none
    local_storage_location := some ".tokens.json"
    local_storage_object_provided := true
    force_token_refresh := false }

theorem C10_conflicting_storage_witness :
    init envAllValid argsBoth
      = some (Except.error "Can't specify both local storage file and object.", []) :=
  C10_conflicting_storage envAllValid argsBoth rfl rfl

end TokenManager
